import Mathlib

/-!
Verification of `src/main.py` of the rare-buy-bot repository: a Telegram bot
that polls a Uniswap-style pair contract for `Swap` events, formats buy
notifications, and relays them to one chat.

The embedding is shallow and faithful to the Python source:
* Python `int`/`str`/`None` values that flow through dynamically typed
  positions are modelled by `PyVal`; `os.getenv` results are `strV`/`noneV`.
* Python floats are idealised as rationals `ℚ`; `/` and `**` carry their
  dynamic checks (`ZeroDivisionError`, `TypeError`) in `Except PyErr`.
* Remote calls (price fetch, filter fetch, message send) are oracles passed
  in as parameters; the formatter additionally returns the list of remote
  calls it made.
* Telegram/job-queue state is explicit (`BotState`), and the periodic job
  `monitor_buys` is a function of the oracle outcomes.
-/

deriving instance DecidableEq for Except

namespace RareBuyBot

/-- Python exception values that can arise in the embedded fragment.  All
constructors model subclasses of `Exception` (the class caught by the broad
`except Exception` in `monitor_buys`). -/
inductive PyErr where
  | typeError
  | zeroDivisionError
  | attributeError
  | rpcError (msg : String)
  | sendError (msg : String)
deriving DecidableEq

/-- A dynamically typed Python value in the positions that matter here:
the results of `os.getenv` (always `str` or `None`) and the integer chat id
of a Telegram update. -/
inductive PyVal where
  | intV (n : ℤ)
  | strV (s : String)
  | noneV
deriving DecidableEq

/-- Model of `os.getenv`: returns the environment string when set, `None`
otherwise.  It never returns an `int`. -/
def getenvVal : Option String → PyVal
  | some s => .strV s
  | none => .noneV

/-- Python `==` between an `int` left operand and an arbitrary value:
equality across distinct builtin types (`int` vs `str`/`None`) is `False`. -/
def pyEqIntVal (n : ℤ) (v : PyVal) : Bool :=
  match v with
  | .intV m => n == m
  | .strV _ => false
  | .noneV => false

/-- Exact rational addition, written via `mkRat` so that it reduces in the
kernel (the library's `Rat.add` is `@[irreducible]`); equal to `a + b`. -/
def qAdd (a b : ℚ) : ℚ :=
  mkRat (a.num * b.den + b.num * a.den) (a.den * b.den)

/-- Exact rational multiplication via `mkRat`; equal to `a * b`. -/
def qMul (a b : ℚ) : ℚ :=
  mkRat (a.num * b.num) (a.den * b.den)

/-- Exact rational division via `Rat.divInt`; equal to `a / b` (and `0` when
`b = 0`, a case the embedded code always guards). -/
def qDiv (a b : ℚ) : ℚ :=
  Rat.divInt (a.num * b.den) ((a.den : ℤ) * b.num)

/-- Round to the nearest integer (used only for the idealised fixed-point
rendering `fmtFixed`). -/
def qRound (a : ℚ) : ℤ :=
  (qAdd a (mkRat 1 2)).floor

/-- The rational `10 ^ k` for an integer exponent `k`, built from primitive
`Nat` power so it reduces in the kernel. -/
def tenPowZ (k : ℤ) : ℚ :=
  if 0 ≤ k then mkRat (10 ^ k.toNat) 1 else mkRat 1 (10 ^ (-k).toNat)

/-- Python `10 ** x` for a dynamically typed exponent `x` (line 89 of
`main.py`: `10**TOKEN_DECIMALS`).  Defined for `int` exponents (negative
exponents give the float `10.0 ** x`, here its exact rational value); for a
`str` or `None` exponent Python raises `TypeError`. -/
def pyPowTen (v : PyVal) : Except PyErr ℚ :=
  match v with
  | .intV n => .ok (tenPowZ n)
  | .strV _ => .error .typeError
  | .noneV => .error .typeError

/-- Python `/` on numbers (true division): raises `ZeroDivisionError` on a
zero divisor, otherwise returns the (idealised exact) quotient. -/
def pyDiv (a b : ℚ) : Except PyErr ℚ :=
  if b = 0 then .error .zeroDivisionError else .ok (qDiv a b)

/-- One `Swap` event as consumed by `format_swap_message`:
`event["args"]["amount0Out"]`, `event["args"]["amount1In"]` (uint256 log
fields) and `event["transactionHash"]` (a byte string). -/
structure SwapEvent where
  amount0Out : ℕ
  amount1In : ℕ
  transactionHash : List (Fin 256)
deriving DecidableEq

/-- Remote calls the embedded code can perform, for effect-trace claims. -/
inductive RemoteCall where
  | priceFetch
  | filterFetch
  | createFilter
  | sendMessage
deriving DecidableEq

/-- Function `get_latest_eth_price` (lines 69–75): the raw second field of
`latestRoundData()` divided by `1e8`.  The remote call itself is modelled by
the caller handing in the raw answer. -/
def get_latest_eth_price (answer : ℤ) : ℚ :=
  qDiv (mkRat answer 1) (tenPowZ 8)

/-- Constant `ROCKET_EMOJI_DIVIDER = 20` (line 84). -/
def ROCKET_EMOJI_DIVIDER : ℕ := 20

/-- Decimal digit character. -/
def digitChar (n : ℕ) : Char :=
  match n with
  | 0 => '0' | 1 => '1' | 2 => '2' | 3 => '3' | 4 => '4'
  | 5 => '5' | 6 => '6' | 7 => '7' | 8 => '8' | _ => '9'

/-- Decimal digits of `n` (fuel-structured so that it reduces in the
kernel); empty for `0`. -/
def natDigitsAux : ℕ → ℕ → List Char
  | 0, _ => []
  | fuel + 1, n => if n = 0 then [] else natDigitsAux fuel (n / 10) ++ [digitChar (n % 10)]

/-- Decimal rendering of a natural number. -/
def natDigitsStr (n : ℕ) : String :=
  if n = 0 then "0" else String.mk (natDigitsAux n n)

/-- Lowercase hex digit character. -/
def hexDigit (n : ℕ) : Char :=
  if n < 10 then digitChar n
  else match n with
    | 10 => 'a' | 11 => 'b' | 12 => 'c' | 13 => 'd' | 14 => 'e' | _ => 'f'

/-- Model of `HexBytes.hex()`: `0x`-prefixed lowercase hex of the byte string. -/
def bytesHex (bs : List (Fin 256)) : String :=
  "0x" ++ String.mk ((bs.map (fun b => [hexDigit (b.val / 16), hexDigit (b.val % 16)])).flatten)

/-- Python fixed-point formatting `f"{q:.prec f}"`, idealised on exact
rationals (rounding to nearest; the claims under verification do not depend
on the tie-breaking rule of binary floats). -/
def fmtFixed (q : ℚ) (prec : ℕ) : String :=
  let scaled : ℤ := qRound (qMul q (tenPowZ prec))
  let sign : String := if scaled < 0 then "-" else ""
  let m : ℕ := scaled.natAbs
  let intPart := m / 10 ^ prec
  let fracPart := m % 10 ^ prec
  let fracDigits := natDigitsAux fracPart fracPart
  sign ++ natDigitsStr intPart ++ "." ++
    String.mk (List.replicate (prec - fracDigits.length) '0' ++ fracDigits)

/-- Python `"🚀" * n` for an `int` `n` (empty for `n ≤ 0`). -/
def rocketRepeat (n : ℤ) : String :=
  String.mk (List.replicate n.toNat '🚀')

/-- Result of `format_swap_message`: Python `False` (the skip sentinel) or
the message text. -/
inductive FormatResult where
  | skip
  | msg (text : String)
deriving DecidableEq

/-- The message template of lines 104–111 of `main.py`. -/
def messageText (pairAddress : String) (rockets : String)
    (spent_eth spent_eth_usd_value tokens_got token_price : ℚ)
    (transaction_hash : String) : String :=
  "<b>RareFiND (FND) BUY!</b>\n" ++ rockets ++ "\n\n" ++
  "<b>Spent:</b> " ++ fmtFixed spent_eth 3 ++ " ETH = ($" ++
  fmtFixed spent_eth_usd_value 2 ++ ")\n" ++
  "<b>Got:</b> " ++ fmtFixed tokens_got 2 ++ " FND\n" ++
  "<b>Price:</b> " ++ fmtFixed token_price 6 ++ "\n\n" ++
  "<a href=\x27https://etherscan.io/tx/" ++ transaction_hash ++
  "\x27>TX</a> | <a href=\x27https://www.dextools.io/app/en/ether/pair-explorer/" ++
  pairAddress ++ "\x27>Dex</a>"

/-- Function `format_swap_message` (lines 88–112 of `main.py`), faithful to the
source.  Parameters stand for the module globals and the one remote call it
performs: `TOKEN_DECIMALS` is the raw `os.getenv` result (a `PyVal`),
`priceResult` is the outcome of the `latestRoundData()` remote call made by
`get_latest_eth_price` (raw integer answer, or a raised exception), and
`pairAddress` is `PAIR_CONTRACT_ADDRESS`.  Returns the Python result
(raised exception, `False`, or the text) together with the list of remote
calls actually performed. -/
def format_swap_message (tokenDecimals : PyVal) (priceResult : Except PyErr ℤ)
    (pairAddress : String) (event : SwapEvent) :
    Except PyErr FormatResult × List RemoteCall :=
  match pyPowTen tokenDecimals with
  | .error e => (.error e, [])
  | .ok denom =>
    match pyDiv (mkRat event.amount0Out 1) denom with
    | .error e => (.error e, [])
    | .ok tokens_got =>
      if tokens_got = 0 then (.ok .skip, [])
      else
        match pyDiv (mkRat event.amount1In 1) (tenPowZ 18) with
        | .error e => (.error e, [])
        | .ok spent_eth =>
          match priceResult with
          | .error e => (.error e, [.priceFetch])
          | .ok answer =>
            let spent_eth_usd_value := qMul spent_eth (get_latest_eth_price answer)
            match pyDiv spent_eth_usd_value tokens_got with
            | .error e => (.error e, [.priceFetch])
            | .ok token_price =>
              let transaction_hash := bytesHex event.transactionHash
              let num_rockets : ℤ :=
                max 1 (qDiv spent_eth_usd_value (mkRat ROCKET_EMOJI_DIVIDER 1)).floor
              let rockets := rocketRepeat num_rockets
              (.ok (.msg (messageText pairAddress rockets spent_eth
                spent_eth_usd_value tokens_got token_price transaction_hash)),
               [.priceFetch])

/-- One scheduled job-queue entry, as created by
`run_repeating(monitor_buys, interval=10, first=0, name="monitoring_active")`
on lines 145–147. -/
structure Job where
  interval : ℕ
  first : ℕ
  name : String
deriving DecidableEq

/-- The subscription handle:
`contract.events.Swap.create_filter(fromBlock="latest")` (line 138). -/
structure EventFilter where
  fromBlock : String
deriving DecidableEq

/-- State touched by the command handlers: the module's single mutable
global (`event_filter`, the only name under a `global` declaration in
`main.py`), the application's job queue, and the replies sent so far
(chat id replied to, text). -/
structure BotState where
  event_filter : Option EventFilter
  jobs : List Job
  sent : List (ℤ × String)
deriving DecidableEq

/-- Reply text of line 142. -/
def startText : String := "Monitoring for buys has started."

/-- Reply text of lines 151 and 172. -/
def rejectText : String := "This bot works only on @rarefnd group."

/-- Reply text of line 167. -/
def stopText : String := "Rare Buy Bot has stopped monitoring buys."

/-- The fixed job name of lines 146 and 160. -/
def monitoringJobName : String := "monitoring_active"

/-- The `start` handler (lines 134–153).  `chatIdEnv` is the module global
`CHAT_ID = os.getenv("CHAT_ID")` (line 83); `chat_id` is
`update.effective_chat.id`, always an `int`.  The global `event_filter` is
reassigned before the chat check; the check is Python `==` between the
`int` chat id and the env value. -/
def start (chatIdEnv : PyVal) (chat_id : ℤ) (s : BotState) : BotState :=
  let s1 : BotState := { s with event_filter := some ⟨"latest"⟩ }
  if pyEqIntVal chat_id chatIdEnv then
    { s1 with sent := s1.sent ++ [(chat_id, startText)],
              jobs := s1.jobs ++ [⟨10, 0, monitoringJobName⟩] }
  else
    { s1 with sent := s1.sent ++ [(chat_id, rejectText)] }

/-- The `stop` handler (lines 156–174): under the same chat check, collects
all jobs named `monitoring_active` (`get_jobs_by_name`) and removes each
(`schedule_removal`); otherwise replies with the rejection text. -/
def stop (chatIdEnv : PyVal) (chat_id : ℤ) (s : BotState) : BotState :=
  if pyEqIntVal chat_id chatIdEnv then
    { s with jobs := s.jobs.filter (fun j => !(j.name == monitoringJobName)),
             sent := s.sent ++ [(chat_id, stopText)] }
  else
    { s with sent := s.sent ++ [(chat_id, rejectText)] }

/-- The oracle environment of one `monitor_buys` tick: the module globals it
reads, and the outcomes of the remote calls it makes, indexed by the
position of the event in the fetched batch (one price fetch and at most one
send per event). -/
structure Env where
  tokenDecimals : PyVal
  chatIdEnv : PyVal
  pairAddress : String
  priceOracle : ℕ → Except PyErr ℤ
  sendOracle : ℕ → Except PyErr Unit

/-- Log line of `logger.info` inside the loop (line 129). -/
def infoLine (text : String) : String :=
  "Function: monitor_buys: Got new price:\n" ++ text

/-- Log line of `logger.error` in the `except` clause (line 131).  The
source string lacks the `f` prefix, so the exception is not interpolated:
the literal text is logged. -/
def errorLine : String := "Function: monitor_buys: Error fetching new entries: \x7be\x7d"

/-- The body of the `for` loop for one event (lines 121–129): format, then
send and info-log when the text is truthy (Python `if text:` is false for
`False` and for an empty string).  Returns the text sent, `none` when
nothing was sent, or the exception raised. -/
def eventAttempt (env : Env) (i : ℕ) (e : SwapEvent) : Except PyErr (Option String) :=
  match format_swap_message env.tokenDecimals (env.priceOracle i) env.pairAddress e with
  | (.error err, _) => .error err
  | (.ok .skip, _) => .ok none
  | (.ok (.msg text), _) =>
    if text.isEmpty then .ok none
    else
      match env.sendOracle i with
      | .error err => .error err
      | .ok _ => .ok (some text)

/-- Whether the loop body ran without raising. -/
def attemptOk : Except PyErr (Option String) → Bool
  | .ok _ => true
  | .error _ => false

/-- Accumulated effects of one tick: messages sent (destination, text) and
info-log lines, in order. -/
abbrev TickAcc := List (PyVal × String) × List String

/-- The `for event in new_entries` loop (lines 120–129): processes events in
order, accumulating sends and logs; a raised exception aborts the loop,
keeping what was already sent. -/
def runBatch (env : Env) : ℕ → TickAcc → List SwapEvent → Except (PyErr × TickAcc) TickAcc
  | _, acc, [] => .ok acc
  | i, acc, e :: rest =>
    match eventAttempt env i e with
    | .error err => .error (err, acc)
    | .ok none => runBatch env (i + 1) acc rest
    | .ok (some text) =>
      runBatch env (i + 1) (acc.1 ++ [(env.chatIdEnv, text)], acc.2 ++ [infoLine text]) rest

/-- The `try` block of `monitor_buys` (lines 118–129): read the global
`event_filter` (`.get_new_entries()` on `None` raises `AttributeError`),
fetch the new entries (`fetchResult` is the remote outcome), then run the
loop. -/
def monitor_buys_body (env : Env) (event_filter : Option EventFilter)
    (fetchResult : Except PyErr (List SwapEvent)) : Except (PyErr × TickAcc) TickAcc :=
  match event_filter with
  | none => .error (.attributeError, ([], []))
  | some _ =>
    match fetchResult with
    | .error e => .error (e, ([], []))
    | .ok events => runBatch env 0 ([], []) events

/-- Observable outcome of one `monitor_buys` invocation. -/
structure TickResult where
  sent : List (PyVal × String)
  infoLogs : List String
  errorLogs : List String
deriving DecidableEq

/-- Function `monitor_buys` (lines 116–131): the `try` body guarded by the single
broad `except Exception` clause, which logs the constant (malformed) error
line and swallows the exception.  An exception escaping the handler would
show up as `Except.error` in the result. -/
def monitor_buys (env : Env) (event_filter : Option EventFilter)
    (fetchResult : Except PyErr (List SwapEvent)) : Except PyErr TickResult :=
  match monitor_buys_body env event_filter fetchResult with
  | .ok (sent, logs) => .ok ⟨sent, logs, []⟩
  | .error (_, (sent, logs)) => .ok ⟨sent, logs, [errorLine]⟩

/-- The sends and info-log lines produced by a batch all of whose loop-body
attempts succeed (used to state what a partially processed batch keeps). -/
def okAcc (env : Env) (i : ℕ) : List SwapEvent → TickAcc
  | [] => ([], [])
  | e :: rest =>
    match eventAttempt env i e with
    | .ok (some text) =>
      let r := okAcc env (i + 1) rest
      ((env.chatIdEnv, text) :: r.1, infoLine text :: r.2)
    | _ => okAcc env (i + 1) rest

/-- A concrete oracle environment (decimals `0`, price feed answering
`2500·10^8`, the send of the second batch event failing), used to exercise
the tick model on explicit inputs. -/
def envW : Env where
  tokenDecimals := .intV 0
  chatIdEnv := .strV "900001"
  pairAddress := "0xdead"
  priceOracle := fun _ => .ok (2500 * 10 ^ 8)
  sendOracle := fun i => if i = 0 then .ok () else .error (.sendError "down")

/-- Detects a `ZeroDivisionError` outcome of the formatter. -/
def isZeroDivRaise : Except PyErr FormatResult → Bool
  | .error .zeroDivisionError => true
  | _ => false

/-!  Theorems.  -/

/-- Ten to any integer power is a non-zero rational. -/
theorem tenPowZ_ne_zero (k : ℤ) : tenPowZ k ≠ 0 := by
  unfold tenPowZ
  split
  · exact (Rat.mkRat_ne_zero (by norm_num)).mpr (by positivity)
  · exact (Rat.mkRat_ne_zero (by positivity)).mpr (by norm_num)

/-- Claim C1 (evidence of the code bug): for every value of the `CHAT_ID`
environment variable and every chat — including the designated chat, whose
integer id the variable names in decimal — `start` schedules no job and
sends the rejection text, because line 140 compares the `int`
`update.effective_chat.id` with the raw environment string (`os.getenv`
never returns an `int`), and Python `==` between an `int` and a `str` or
`None` is always `False`.  The start-confirmation branch is unreachable. -/
theorem start_always_rejects (o : Option String) (chat_id : ℤ) (s : BotState) :
    start (getenvVal o) chat_id s =
      { s with event_filter := some ⟨"latest"⟩,
               sent := s.sent ++ [(chat_id, rejectText)] } := by
  cases o <;> rfl

/-- Claim C2 (evidence of the code bug): on the spec's own example — with
`TOKEN_DECIMALS` set to `"18"`, `amount0Out = 500·10^18`,
`amount1In = 2·10^18` and the price feed answering `3000·10^8`
(spot price $3000) — the formatter raises `TypeError` at
`10**TOKEN_DECIMALS` (line 89; the env string is never converted with
`int(...)`) and computes none of `tokens_got`, `spent_eth`, `spent_usd`,
`unit_price`. -/
theorem format_swap_message_example_raises :
    format_swap_message (getenvVal (some "18")) (.ok (3000 * 10 ^ 8)) "0xPAIR"
      ⟨500 * 10 ^ 18, 2 * 10 ^ 18, []⟩ = (.error .typeError, []) := by
  decide

/-- Claim C3 (evidence of the code bug): on an event with `amount0Out = 0`
the formatter does not return the skip sentinel `False`: line 89 raises
`TypeError` (`10 ** TOKEN_DECIMALS` with the string env value) before the
`tokens_got == 0` check on line 90 can run. -/
theorem format_swap_message_zero_amount_raises :
    format_swap_message (getenvVal (some "18")) (.ok (3000 * 10 ^ 8)) "0xPAIR"
      ⟨0, 7 * 10 ^ 17, [(171 : Fin 256)]⟩ = (.error .typeError, []) := by
  decide

/-- Claim C4 (evidence of the code bug): on an event with positive
`amount0Out` no message is rendered at all — in particular no string with
`max(1, floor(spent_usd/20))` intensity markers — because line 89 raises
`TypeError` before the rocket computation on line 100 is reached. -/
theorem format_swap_message_positive_amount_raises :
    format_swap_message (getenvVal (some "9")) (.ok (2000 * 10 ^ 8)) "0xPAIR2"
      ⟨10 ^ 9, 10 ^ 18, []⟩ = (.error .typeError, []) := by
  decide

/-- Claim C7 (evidence of the code bug): for every value of the `CHAT_ID`
environment variable, every chat — including the designated one — and every
state, even one with a `monitoring_active` job scheduled, `stop` removes
nothing and sends the rejection text, because line 159 compares the `int`
chat id with the raw environment string, which is always `False` in
Python.  The stop-confirmation branch is unreachable. -/
theorem stop_always_rejects (o : Option String) (chat_id : ℤ) (s : BotState) :
    stop (getenvVal o) chat_id s =
      { s with sent := s.sent ++ [(chat_id, rejectText)] } := by
  cases o <;> rfl

/-- Claim C9: every invocation of `start`, from any chat whatsoever,
rebinds the module's only mutable global `event_filter` to a fresh filter
starting at the latest block — the assignment on line 138 precedes the
authorization check on line 140 — and the rest of the state is untouched
except for the reply and (in the authorized branch) the appended job. -/
theorem start_rebinds_filter_unconditionally (chatIdEnv : PyVal) (chat_id : ℤ)
    (s : BotState) :
    (start chatIdEnv chat_id s).event_filter = some ⟨"latest"⟩ ∧
    ((start chatIdEnv chat_id s).jobs = s.jobs ∨
      (start chatIdEnv chat_id s).jobs = s.jobs ++ [⟨10, 0, monitoringJobName⟩]) ∧
    ((start chatIdEnv chat_id s).sent = s.sent ++ [(chat_id, startText)] ∨
      (start chatIdEnv chat_id s).sent = s.sent ++ [(chat_id, rejectText)]) := by
  unfold start
  cases hb : pyEqIntVal chat_id chatIdEnv <;> simp

/-- Claim C5: the formatter is a pure function — equal
`(decimals, price-fetch outcome, pair address, event)` inputs give equal
outputs — and its remote-call trace never contains anything but the
spot-price fetch (no send, no filter access, no filter creation). -/
theorem format_swap_message_deterministic_price_only :
    (∀ d p a e d2 p2 a2 e2, d = d2 → p = p2 → a = a2 → e = e2 →
      format_swap_message d p a e = format_swap_message d2 p2 a2 e2) ∧
    (∀ d p a e c, c ∈ (format_swap_message d p a e).2 → c = RemoteCall.priceFetch) := by
  constructor
  · intro d p a e d2 p2 a2 e2 h1 h2 h3 h4
    rw [h1, h2, h3, h4]
  · intro d p a e c hc
    unfold format_swap_message at hc
    rcases hd : pyPowTen d with e1 | denom <;> simp only [hd] at hc
    · simp at hc
    rcases h0 : pyDiv (mkRat e.amount0Out 1) denom with e2 | tokens <;>
      simp only [h0] at hc
    · simp at hc
    by_cases ht : tokens = 0 <;> simp only [ht, if_true, if_false] at hc
    · simp at hc
    rcases h1 : pyDiv (mkRat e.amount1In 1) (tenPowZ 18) with e3 | spent <;>
      simp only [h1] at hc
    · simp at hc
    rcases p with e4 | answer <;> simp only [] at hc
    · simp at hc
      exact hc
    rcases h2 : pyDiv (qMul spent (get_latest_eth_price answer)) tokens with e5 | price <;>
      simp only [h2] at hc
    · simp at hc
      exact hc
    · simp at hc
      exact hc

/-- Witness for the formatter determinism/trace claim. -/
theorem format_swap_message_deterministic_price_only_witness :
    format_swap_message (.intV 2) (.ok 5) "0xA" ⟨300, 400, []⟩ =
      format_swap_message (.intV 2) (.ok 5) "0xA" ⟨300, 400, []⟩ ∧
    RemoteCall.priceFetch = RemoteCall.priceFetch :=
  ⟨format_swap_message_deterministic_price_only.1 _ _ _ _ _ _ _ _ rfl rfl rfl rfl,
   format_swap_message_deterministic_price_only.2 (.intV 2) (.ok 5) "0xA"
     ⟨300, 400, []⟩ RemoteCall.priceFetch (by decide)⟩

/-- An exception from `10 ** TOKEN_DECIMALS` is always the `TypeError`. -/
theorem pyPowTen_error_eq {d : PyVal} {er : PyErr} (h : pyPowTen d = .error er) :
    er = .typeError := by
  cases d with
  | intV n => simp [pyPowTen] at h
  | strV s =>
    simp [pyPowTen] at h
    exact h.symm
  | noneV =>
    simp [pyPowTen] at h
    exact h.symm

/-- A successful `10 ** TOKEN_DECIMALS` yields a non-zero denominator. -/
theorem pyPowTen_ok_ne_zero {d : PyVal} {q : ℚ} (h : pyPowTen d = .ok q) : q ≠ 0 := by
  cases d with
  | intV n =>
    simp [pyPowTen] at h
    exact h ▸ tenPowZ_ne_zero n
  | strV s => simp [pyPowTen] at h
  | noneV => simp [pyPowTen] at h

/-- A raising `pyDiv` is exactly a `ZeroDivisionError` on a zero divisor. -/
theorem pyDiv_error {a b : ℚ} {er : PyErr} (h : pyDiv a b = .error er) :
    er = .zeroDivisionError ∧ b = 0 := by
  unfold pyDiv at h
  by_cases hb : b = 0
  · rw [if_pos hb] at h
    refine ⟨?_, hb⟩
    injection h with h
    exact h.symm
  · rw [if_neg hb] at h
    cases h

/-- Claim C8: for every decimals value, every successfully fetched price
answer, every pair address and every event, the formatter never raises
`ZeroDivisionError`: the `unit_price = spent_usd / tokens_got` division on
line 96 runs only after the `tokens_got == 0` skip check, and the remaining
divisors (`10 ** decimals` and `1e18`) are non-zero. -/
theorem format_swap_message_no_zero_division (d : PyVal) (answer : ℤ)
    (a : String) (e : SwapEvent) :
    isZeroDivRaise (format_swap_message d (.ok answer) a e).1 = false := by
  unfold format_swap_message
  rcases hd : pyPowTen d with er | denom <;> simp only [hd]
  · rw [pyPowTen_error_eq hd]
    rfl
  have hdz : denom ≠ 0 := pyPowTen_ok_ne_zero hd
  rcases h0 : pyDiv (mkRat e.amount0Out 1) denom with er0 | tokens <;> simp only [h0]
  · exact absurd (pyDiv_error h0).2 hdz
  by_cases ht : tokens = 0
  · simp only [if_pos ht]
    rfl
  simp only [if_neg ht]
  rcases h1 : pyDiv (mkRat e.amount1In 1) (tenPowZ 18) with er1 | spent <;> simp only [h1]
  · exact absurd (pyDiv_error h1).2 (tenPowZ_ne_zero 18)
  rcases h2 : pyDiv (qMul spent (get_latest_eth_price answer)) tokens with er2 | price <;>
    simp only [h2]
  · exact absurd (pyDiv_error h2).2 ht
  rfl

/-- Claim C6: no failure escapes one `monitor_buys` invocation.  Every
possible outcome of the tick — any oracle environment, any state of the
subscription handle (including the absent/`None` handle, whose
`AttributeError` is swallowed by the same broad catch as fetch failures)
and any fetch outcome — is `Except.ok`: the single `except Exception`
clause catches the failure and logs the (constant) error line, so the
process does not crash and the next tick starts from a clean slate. -/
theorem monitor_buys_contains_all_failures :
    (∀ (env : Env) (f : Option EventFilter) (fr : Except PyErr (List SwapEvent)),
      ∃ r : TickResult, monitor_buys env f fr = .ok r) ∧
    (∀ (env : Env) (fr : Except PyErr (List SwapEvent)),
      monitor_buys env none fr = .ok ⟨[], [], [errorLine]⟩) ∧
    (∀ (env : Env) (h : EventFilter) (er : PyErr),
      monitor_buys env (some h) (.error er) = .ok ⟨[], [], [errorLine]⟩) := by
  refine ⟨fun env f fr => ?_, fun env fr => rfl, fun env h er => rfl⟩
  rcases hb : monitor_buys_body env f fr with ⟨er, sent, logs⟩ | ⟨sent, logs⟩
  · exact ⟨⟨sent, logs, [errorLine]⟩, by simp [monitor_buys, hb]⟩
  · exact ⟨⟨sent, logs, []⟩, by simp [monitor_buys, hb]⟩

/-- Processing a prefix of the batch all of whose loop-body attempts
succeed accumulates exactly its sends and info-log lines. -/
theorem runBatch_ok_front (env : Env) (pre : List SwapEvent) :
    ∀ (i : ℕ) (acc : TickAcc) (rest : List SwapEvent),
      (∀ j, j < pre.length →
        attemptOk (eventAttempt env (i + j) (pre.getD j ⟨0, 0, []⟩)) = true) →
      runBatch env i acc (pre ++ rest) =
        runBatch env (i + pre.length)
          (acc.1 ++ (okAcc env i pre).1, acc.2 ++ (okAcc env i pre).2) rest := by
  induction pre with
  | nil => intro i acc rest _; simp [okAcc]
  | cons ev pre ih =>
    intro i acc rest h
    have h0 : attemptOk (eventAttempt env i ev) = true := by
      have := h 0 (by simp)
      simpa using this
    have hrec : ∀ j, j < pre.length →
        attemptOk (eventAttempt env (i + 1 + j) (pre.getD j ⟨0, 0, []⟩)) = true := by
      intro j hj
      have := h (j + 1) (by simpa using Nat.succ_lt_succ hj)
      have harith : i + (j + 1) = i + 1 + j := by omega
      simpa [harith] using this
    rcases he : eventAttempt env i ev with er | v
    · rw [he] at h0
      simp [attemptOk] at h0
    rcases v with _ | text
    · rw [List.cons_append]
      simp only [runBatch, he]
      rw [ih (i + 1) acc rest hrec]
      simp only [okAcc, he]
      have harith : i + (pre.length + 1) = i + 1 + pre.length := by omega
      rw [List.length_cons, harith]
    · rw [List.cons_append]
      simp only [runBatch, he]
      rw [ih (i + 1) (acc.1 ++ [(env.chatIdEnv, text)], acc.2 ++ [infoLine text]) rest hrec]
      simp only [okAcc, he]
      have harith : i + (pre.length + 1) = i + 1 + pre.length := by omega
      rw [List.length_cons, harith]
      simp [List.append_assoc]

/-- Claim C10: when the loop body first raises on the k-th event of the
fetched batch — the batch is `pre ++ ek :: post` with every attempt on
`pre` succeeding and the attempt on `ek` (its formatting or its send)
raising — the messages already sent for the events before `ek` remain
sent, while `ek` and every later event of the batch are dropped; the
invocation still returns normally, with only the swallowed-error log line
and no notification of the loss. -/
theorem monitor_buys_keeps_prefix_drops_rest (env : Env) (hf : EventFilter)
    (pre : List SwapEvent) (ek : SwapEvent) (post : List SwapEvent) (err : PyErr)
    (hpre : ∀ j, j < pre.length →
      attemptOk (eventAttempt env j (pre.getD j ⟨0, 0, []⟩)) = true)
    (hk : eventAttempt env pre.length ek = .error err) :
    monitor_buys env (some hf) (.ok (pre ++ ek :: post)) =
      .ok ⟨(okAcc env 0 pre).1, (okAcc env 0 pre).2, [errorLine]⟩ := by
  have hrun := runBatch_ok_front env pre 0 ([], []) (ek :: post) (by simpa using hpre)
  simp only [monitor_buys, monitor_buys_body]
  rw [hrun]
  simp only [Nat.zero_add, List.nil_append, runBatch, hk]

set_option maxRecDepth 100000 in
/-- Witness for the partial-batch claim: a two-events-in, send-fails-on-the-
second batch, with the first message kept and the third event dropped. -/
theorem monitor_buys_keeps_prefix_drops_rest_witness :
    (∀ j, j < ([⟨5, 10 ^ 18, []⟩] : List SwapEvent).length →
      attemptOk (eventAttempt envW j
        (([⟨5, 10 ^ 18, []⟩] : List SwapEvent).getD j ⟨0, 0, []⟩)) = true) ∧
    eventAttempt envW 1 ⟨7, 2 * 10 ^ 18, []⟩ = .error (.sendError "down") ∧
    monitor_buys envW (some ⟨"latest"⟩)
        (.ok ([⟨5, 10 ^ 18, []⟩] ++ ⟨7, 2 * 10 ^ 18, []⟩ :: [⟨9, 10 ^ 18, []⟩])) =
      .ok ⟨(okAcc envW 0 [⟨5, 10 ^ 18, []⟩]).1, (okAcc envW 0 [⟨5, 10 ^ 18, []⟩]).2,
        [errorLine]⟩ :=
  ⟨by decide, by decide,
   monitor_buys_keeps_prefix_drops_rest envW ⟨"latest"⟩ [⟨5, 10 ^ 18, []⟩]
     ⟨7, 2 * 10 ^ 18, []⟩ [⟨9, 10 ^ 18, []⟩] (.sendError "down")
     (by decide) (by decide)⟩

end RareBuyBot
